import Mathlib

/-!
Verification of two browser-game state modules against their source:
`src/sanity.js` (a bounded "sanity" meter with subscriber notification and a
glitch-text wrapper) and `src/inventory.js` (a persisted set of item names
with change/use listeners).

Modelling choices, each traceable to a source line:
* JS numbers are modelled by `ℚ`; a value whose `Number(...)` coercion is NaN
  is the constructor `JNum.nan`.  `numOr` embeds the JS idiom `Number(x) || d`
  (NaN and 0 are falsy, so both fall back to `d`), used at sanity.js:69,85,93.
* A subscriber callback is identified by a numeric `id` and carries a `throws`
  flag saying whether invoking it raises an exception.  The notification loops
  (sanity.js:24-26, inventory.js:54) wrap each call in try/catch, so the
  embedded loop is total: it records every invocation together with its
  `threw` outcome and always continues with the rest of the list.
* `Math.random()` outcomes are a stream `g : ℕ → ℚ` of values in `[0,1)`,
  consumed left to right; the position index is threaded explicitly.
* The DOM (badge, CustomEvent) is outside the model; the broadcast payloads
  that the claims mention are recorded in the returned event logs.
-/

/-- A JS value as seen through `Number(...)`: either a finite number or NaN
(anything non-numeric).  `Number(undefined)`, `Number("abc")` etc. are NaN. -/
inductive JNum where
  | num (q : ℚ)
  | nan
deriving DecidableEq

/-- The JS idiom `Number(v) || d` (sanity.js:69,85,93): NaN and 0 are falsy,
so both produce the fallback `d`; any other number is returned as is. -/
def numOr (v : JNum) (d : ℚ) : ℚ :=
  match v with
  | .num q => if q = 0 then d else q
  | .nan => d

/-- `clamp` from sanity.js:20: `Math.max(lo, Math.min(hi, v))`. -/
def clamp (v lo hi : ℚ) : ℚ := max lo (min hi v)

/-- A subscriber callback: `id` is its identity (JS function reference),
`throws` says whether calling it raises an exception. -/
structure Callback where
  id : ℕ
  throws : Bool
deriving DecidableEq

/-- The mutable module state of sanity.js (`STATE`, lines 9-17): the clamped
value and the ordered subscriber list.  Initial state: value 100, no
subscribers. -/
structure SanityState where
  value : ℚ
  subscribers : List Callback
deriving DecidableEq

/-- The subscriber loop of `notify` (sanity.js:24-26): each callback is
invoked with the value inside try/catch, so a throwing callback is recorded
(`threw = true`) and iteration continues with the remaining callbacks.
Records `(id, argument, threw)` per invocation. -/
def runCbsAt (v : ℚ) : List Callback → List (ℕ × ℚ × Bool)
  | [] => []
  | cb :: rest => (cb.id, v, cb.throws) :: runCbsAt v rest

/-- `API.get` (sanity.js:82). -/
def Sanity.get (s : SanityState) : ℚ := s.value

/-- `API.set` (sanity.js:84-90): clamp `Number(v)||0` into `[0,100]`; if the
result equals the current value, return it with no state change and no
notification; otherwise store it and notify.  Returns (returned value, new
state, notification log). -/
def Sanity.set (v : JNum) (s : SanityState) : ℚ × SanityState × List (ℕ × ℚ × Bool) :=
  if clamp (numOr v 0) 0 100 = s.value then (s.value, s, [])
  else (clamp (numOr v 0) 0 100,
        { s with value := clamp (numOr v 0) 0 100 },
        runCbsAt (clamp (numOr v 0) 0 100) s.subscribers)

/-- `API.add` (sanity.js:92-98): like `set` but relative to the current
value: clamp `value + (Number(delta)||0)`. -/
def Sanity.add (d : JNum) (s : SanityState) : ℚ × SanityState × List (ℕ × ℚ × Bool) :=
  if clamp (s.value + numOr d 0) 0 100 = s.value then (s.value, s, [])
  else (clamp (s.value + numOr d 0) 0 100,
        { s with value := clamp (s.value + numOr d 0) 0 100 },
        runCbsAt (clamp (s.value + numOr d 0) 0 100) s.subscribers)

/-- `STATE.options.start ?? 100` (sanity.js:69): null/undefined start gives
100. -/
def startNum : Option JNum → JNum
  | none => .num 100
  | some v => v

/-- `API.init` (sanity.js:67-80), value part: store
`clamp(Number(start ?? 100) || 100, 0, 100)` and notify (badge mounting is
DOM-only and outside the model).  Returns (new state, notification log). -/
def Sanity.init (start : Option JNum) (s : SanityState) :
    SanityState × List (ℕ × ℚ × Bool) :=
  ({ s with value := clamp (numOr (startNum start) 100) 0 100 },
   runCbsAt (clamp (numOr (startNum start) 100) 0 100) s.subscribers)

/-- `API.subscribe` (sanity.js:103-112) for a function argument: push the
callback, invoke it once immediately with the current value (try/catch), and
hand back an unsubscribe closure (modelled by `Sanity.unsubscribe cb`). -/
def Sanity.subscribe (cb : Callback) (s : SanityState) :
    SanityState × List (ℕ × ℚ × Bool) :=
  ({ s with subscribers := s.subscribers ++ [cb] },
   [(cb.id, s.value, cb.throws)])

/-- The unsubscribe closure returned by `subscribe` (sanity.js:108-111):
`indexOf` + `splice`, i.e. remove the first occurrence of the callback. -/
def Sanity.unsubscribe (cb : Callback) (s : SanityState) : SanityState :=
  { s with subscribers := s.subscribers.erase cb }

/-- `tierFor` (sanity.js:39-42). -/
def tierFor (v : ℚ) : ℕ :=
  if 80 ≤ v then 1 else if 60 ≤ v then 2 else if 40 ≤ v then 3
  else if 20 ≤ v then 4 else 5

/-- The intensity selection in `wrapped` (sanity.js:147):
`(t<=2)?0 : (t===3?0.03 : t===4?0.08 : 0.14)`. -/
def intensityFor (t : ℕ) : ℚ :=
  if t ≤ 2 then 0 else if t = 3 then 3 / 100 else if t = 4 then 8 / 100
  else 14 / 100

/-- The glitch intensity used by the wrapper for current value `v`. -/
def glitchIntensity (v : ℚ) : ℚ := intensityFor (tierFor v)

/-- The character class of the regex at sanity.js:150:
`[A-Za-zÀ-ž0-9,.…\-!?]` (letter ranges, U+00C0-U+017E, digits, and six
punctuation characters). -/
def glitchable (c : Char) : Bool :=
  decide ((65 ≤ c.toNat ∧ c.toNat ≤ 90) ∨ (97 ≤ c.toNat ∧ c.toNat ≤ 122) ∨
    (192 ≤ c.toNat ∧ c.toNat ≤ 382) ∨ (48 ≤ c.toNat ∧ c.toNat ≤ 57) ∨
    c ∈ ([',', '.', '…', '-', '!', '?'] : List Char))

/-- JS `|0` on a non-negative-or-negative rational: truncation toward zero,
used for `(Math.random()*kinds.length)|0` (sanity.js:155). -/
def jsTrunc (q : ℚ) : ℤ := if 0 ≤ q then ⌊q⌋ else -⌊-q⌋

/-- `mutate` (sanity.js:148-164) on one character.  `g` is the stream of
`Math.random()` outcomes and `i` the next unconsumed position.  A character
outside the class consumes no roll; otherwise one roll decides whether to
distort, a second picks the kind (index `(roll*5)|0` into
`["dup","swap","dot","tilde","space"]`, out-of-range falling to the default
branch), and the "swap" kind consumes a third roll. -/
def mutateChar (intensity : ℚ) (g : ℕ → ℚ) (i : ℕ) (c : Char) :
    List Char × ℕ :=
  if glitchable c then
    if g i > intensity then ([c], i + 1)
    else
      if jsTrunc (g (i + 1) * 5) = 0 then ([c, c], i + 2)
      else if jsTrunc (g (i + 1) * 5) = 1 then
        ([if g (i + 2) < 1 / 2 then '¬' else '§'], i + 3)
      else if jsTrunc (g (i + 1) * 5) = 2 then (['·'], i + 2)
      else if jsTrunc (g (i + 1) * 5) = 3 then (['~'], i + 2)
      else if jsTrunc (g (i + 1) * 5) = 4 then ([c, ' '], i + 2)
      else ([c], i + 2)
  else ([c], i)

/-- `String(text).split("").map(mutate).join("")` (sanity.js:166): map
`mutate` over the characters, threading the random stream position. -/
def glitchChars (intensity : ℚ) (g : ℕ → ℚ) : List Char → ℕ → List Char × ℕ
  | [], i => ([], i)
  | c :: cs, i =>
      ((mutateChar intensity g i c).1 ++
        (glitchChars intensity g cs (mutateChar intensity g i c).2).1,
       (glitchChars intensity g cs (mutateChar intensity g i c).2).2)

/-- The body of `wrapped` (sanity.js:143-170) at current sanity value `v`:
glitch the text at the tier intensity, then append a zero-width joiner iff
one final roll is `< intensity*0.5`; the result is what is forwarded to the
wrapped render function. -/
def wrappedText (v : ℚ) (text : List Char) (g : ℕ → ℚ) : List Char :=
  if g (glitchChars (glitchIntensity v) g text 0).2 < glitchIntensity v * (1 / 2)
  then (glitchChars (glitchIntensity v) g text 0).1 ++ ['‍']
  else (glitchChars (glitchIntensity v) g text 0).1

/-- The initial `STATE` of sanity.js: value 100, no subscribers. -/
def initialSanity : SanityState := { value := 100, subscribers := [] }

-- ---------------------------------------------------------------------------
-- Helper lemmas
-- ---------------------------------------------------------------------------

lemma clamp_mem_Icc (x : ℚ) : 0 ≤ clamp x 0 100 ∧ clamp x 0 100 ≤ 100 := by
  constructor
  · exact le_max_left 0 _
  · exact max_le (by norm_num) (min_le_left 100 x)

lemma glitchIntensity_of_ge_60 {v : ℚ} (h : 60 ≤ v) : glitchIntensity v = 0 := by
  unfold glitchIntensity tierFor intensityFor
  split_ifs <;> first | rfl | omega

/-- Claim C1: for every input `v`, `Sanity.set v` stores
`clamp(Number(v)||0, 0, 100)`, which lies in `[0,100]`; a non-numeric input
coerces to 0; and `Sanity.add d` stores `clamp(value + (Number(d)||0), 0, 100)`,
also in `[0,100]`. -/
theorem sanity_set_add_clamp (v d : JNum) (s : SanityState) :
    (Sanity.set v s).2.1.value = clamp (numOr v 0) 0 100 ∧
    0 ≤ (Sanity.set v s).2.1.value ∧ (Sanity.set v s).2.1.value ≤ 100 ∧
    (Sanity.add d s).2.1.value = clamp (s.value + numOr d 0) 0 100 ∧
    0 ≤ (Sanity.add d s).2.1.value ∧ (Sanity.add d s).2.1.value ≤ 100 ∧
    numOr JNum.nan 0 = 0 := by
  have hset : (Sanity.set v s).2.1.value = clamp (numOr v 0) 0 100 := by
    unfold Sanity.set
    split_ifs with h
    · exact h.symm
    · rfl
  have hadd : (Sanity.add d s).2.1.value = clamp (s.value + numOr d 0) 0 100 := by
    unfold Sanity.add
    split_ifs with h
    · exact h.symm
    · rfl
  refine ⟨hset, ?_, ?_, hadd, ?_, ?_, rfl⟩
  · rw [hset]; exact (clamp_mem_Icc _).1
  · rw [hset]; exact (clamp_mem_Icc _).2
  · rw [hadd]; exact (clamp_mem_Icc _).1
  · rw [hadd]; exact (clamp_mem_Icc _).2

/-- Claim C2: the glitch intensity is an exact step function of the sanity
value: 0 for `v ≥ 60` (tiers 1-2), 3/100 on `[40,60)`, 8/100 on `[20,40)`,
and 14/100 below 20. -/
theorem glitch_intensity_step (v : ℚ) :
    (60 ≤ v → glitchIntensity v = 0) ∧
    (40 ≤ v → v < 60 → glitchIntensity v = 3 / 100) ∧
    (20 ≤ v → v < 40 → glitchIntensity v = 8 / 100) ∧
    (v < 20 → glitchIntensity v = 14 / 100) := by
  refine ⟨fun h => glitchIntensity_of_ge_60 h, fun h1 h2 => ?_, fun h1 h2 => ?_,
    fun h => ?_⟩ <;>
    · unfold glitchIntensity tierFor intensityFor
      split_ifs <;> first | rfl | omega | linarith

/-- Witness for C2 at concrete values 70, 50, 30, 10. -/
theorem glitch_intensity_step_witness :
    glitchIntensity 70 = 0 ∧ glitchIntensity 50 = 3 / 100 ∧
    glitchIntensity 30 = 8 / 100 ∧ glitchIntensity 10 = 14 / 100 :=
  ⟨(glitch_intensity_step 70).1 (by norm_num),
   (glitch_intensity_step 50).2.1 (by norm_num) (by norm_num),
   (glitch_intensity_step 30).2.2.1 (by norm_num) (by norm_num),
   (glitch_intensity_step 10).2.2.2 (by norm_num)⟩

lemma mutateChar_zero (g : ℕ → ℚ) (i : ℕ) (c : Char) (h : 0 < g i) :
    mutateChar 0 g i c = ([c], if glitchable c then i + 1 else i) := by
  by_cases hg : glitchable c = true
  · simp [mutateChar, hg, h]
  · simp [mutateChar, hg]

lemma glitchChars_zero (g : ℕ → ℚ) (hg : ∀ n, 0 < g n) :
    ∀ (text : List Char) (i : ℕ), (glitchChars 0 g text i).1 = text := by
  intro text
  induction text with
  | nil => intro i; rfl
  | cons c cs ih =>
      intro i
      simp only [glitchChars]
      rw [mutateChar_zero g i c (hg i)]
      simp [ih]

/-- Claim C3 (amended): when the current value is at least 60 the intensity
is 0, and for every outcome of the random rolls in which no roll is exactly
0, the wrapper forwards the input text unmutated and appends no zero-width
joiner.  (The all-rolls-nonzero event has probability 1 under a continuous
uniform roll, but an outcome with a roll of exactly 0 does distort — see the
counterexample.) -/
theorem wrapTypeText_identity_high_sanity (v : ℚ) (text : List Char)
    (g : ℕ → ℚ) (hv : 60 ≤ v) (hg : ∀ n, 0 < g n ∧ g n < 1) :
    wrappedText v text g = text := by
  have hpos : ∀ n, 0 < g n := fun n => (hg n).1
  have h0 : glitchIntensity v = 0 := glitchIntensity_of_ge_60 hv
  unfold wrappedText
  rw [h0]
  have hcond : ¬ (g (glitchChars 0 g text 0).2 < 0 * (1 / 2)) := by
    have := hpos ((glitchChars 0 g text 0).2)
    intro hlt
    rw [zero_mul] at hlt
    linarith
  rw [if_neg hcond]
  exact glitchChars_zero g hpos text 0

/-- Witness for C3 (amended) at value 100, text "ab", all rolls 1/2. -/
theorem wrapTypeText_identity_high_sanity_witness :
    wrappedText 100 ['a', 'b'] (fun _ => 1 / 2) = ['a', 'b'] :=
  wrapTypeText_identity_high_sanity 100 ['a', 'b'] (fun _ => 1 / 2)
    (by norm_num) (fun n => by norm_num)

/-- Counterexample to C3 as stated: at value 100 (intensity 0) the outcome
in which `Math.random()` returns 0 — a value inside its range `[0,1)` — fails
the `roll > intensity` guard, so the character is distorted (duplicated)
and the output differs from the input. -/
theorem wrapTypeText_zero_roll_cex :
    wrappedText 100 ['a'] (fun _ => 0) ≠ ['a'] := by
  have h : wrappedText 100 ['a'] (fun _ => 0) = ['a', 'a'] := by
    norm_num [wrappedText, glitchChars, mutateChar, glitchIntensity, tierFor,
      intensityFor, jsTrunc, (show glitchable 'a' = true by decide)]
  rw [h]
  decide

/-- Claim C4: `subscribe cb` invokes `cb` exactly once, immediately, with the
current value; appends `cb` to the subscriber list; leaves the value alone;
and the returned unsubscribe function removes `cb` from the list. -/
theorem sanity_subscribe_spec (cb : Callback) (s : SanityState) :
    (Sanity.subscribe cb s).2 = [(cb.id, s.value, cb.throws)] ∧
    (Sanity.subscribe cb s).1.subscribers = s.subscribers ++ [cb] ∧
    (Sanity.subscribe cb s).1.value = s.value ∧
    (cb ∉ s.subscribers →
      (Sanity.unsubscribe cb (Sanity.subscribe cb s).1).subscribers
        = s.subscribers) := by
  refine ⟨rfl, rfl, rfl, fun hmem => ?_⟩
  show (s.subscribers ++ [cb]).erase cb = s.subscribers
  rw [List.erase_append_right _ hmem]
  simp

/-- Witness for C4: a fresh callback on the initial state. -/
theorem sanity_subscribe_spec_witness :
    (Sanity.unsubscribe ⟨0, false⟩
        (Sanity.subscribe ⟨0, false⟩ initialSanity).1).subscribers
      = initialSanity.subscribers :=
  (sanity_subscribe_spec ⟨0, false⟩ initialSanity).2.2.2 (by decide)

/-- Claim C5: when the clamped coerced input equals the current value, `set`
(and likewise `add`) returns the current value, leaves the state untouched,
and invokes no subscriber (empty notification log). -/
theorem sanity_noop_on_equal_value (v d : JNum) (s : SanityState) :
    (clamp (numOr v 0) 0 100 = s.value →
      Sanity.set v s = (s.value, s, [])) ∧
    (clamp (s.value + numOr d 0) 0 100 = s.value →
      Sanity.add d s = (s.value, s, [])) := by
  constructor
  · intro h; unfold Sanity.set; rw [if_pos h]
  · intro h; unfold Sanity.add; rw [if_pos h]

/-- Witness for C5: `set 100` and `add 0` on the initial state (value 100). -/
theorem sanity_noop_on_equal_value_witness :
    Sanity.set (JNum.num 100) initialSanity = (100, initialSanity, []) ∧
    Sanity.add (JNum.num 0) initialSanity = (100, initialSanity, []) :=
  ⟨(sanity_noop_on_equal_value (JNum.num 100) (JNum.num 0) initialSanity).1
      rfl,
   (sanity_noop_on_equal_value (JNum.num 100) (JNum.num 0) initialSanity).2
      (by norm_num [clamp, numOr, initialSanity])⟩

/-- Counterexample to C6 as stated: `init({start: 0})` stores 100, not
`clamp(0,0,100) = 0`, because `Number(start ?? 100) || 100` treats the
(falsy) number 0 like an invalid value and falls back to 100. -/
theorem sanity_init_start_zero_cex :
    (Sanity.init (some (JNum.num 0)) initialSanity).1.value ≠ clamp 0 0 100 := by
  have h1 : (Sanity.init (some (JNum.num 0)) initialSanity).1.value = 100 := rfl
  have h2 : clamp 0 0 100 = (0 : ℚ) := rfl
  rw [h1, h2]
  norm_num

/-- Claim C6 (amended): for every numeric `s ≠ 0`, `init({start: s})` stores
`clamp(s, 0, 100)` (for `s = 0` the stored value is 100 instead); and the
concrete scenario holds: `init({start:50})` then `get()` gives 50,
`add(-70)` returns 0 (clamped), then `add(1000)` returns 100 (clamped). -/
theorem sanity_init_clamps_start (q : ℚ) (s : SanityState) (h : q ≠ 0) :
    (Sanity.init (some (JNum.num q)) s).1.value = clamp q 0 100 ∧
    Sanity.get (Sanity.init (some (JNum.num 50)) initialSanity).1 = 50 ∧
    (Sanity.add (JNum.num (-70))
      (Sanity.init (some (JNum.num 50)) initialSanity).1).1 = 0 ∧
    (Sanity.add (JNum.num 1000)
      (Sanity.add (JNum.num (-70))
        (Sanity.init (some (JNum.num 50)) initialSanity).1).2.1).1 = 100 := by
  refine ⟨?_, rfl, ?_, ?_⟩
  · simp [Sanity.init, startNum, numOr, h]
  · norm_num [Sanity.add, Sanity.init, Sanity.get, startNum, numOr,
      initialSanity, clamp]
  · norm_num [Sanity.add, Sanity.init, Sanity.get, startNum, numOr,
      initialSanity, clamp]

/-- Witness for C6 (amended) at start 50. -/
theorem sanity_init_clamps_start_witness :
    (Sanity.init (some (JNum.num 50)) initialSanity).1.value = clamp 50 0 100 :=
  (sanity_init_clamps_start 50 initialSanity (by norm_num)).1

/-- A JS value as passed to the Inventory API, with its truthiness and its
`String(...)` coercion (inventory.js uses `if(!name)` and `String(name)`).
The fragment modelled covers strings, null, undefined, integers and
booleans. -/
inductive JVal where
  | str (s : String)
  | null
  | undef
  | num (n : ℤ)
  | bool (b : Bool)
deriving DecidableEq

/-- JS truthiness: empty string, null, undefined, 0 and false are falsy. -/
def JVal.truthy : JVal → Bool
  | .str s => !(s == "")
  | .null => false
  | .undef => false
  | .num n => decide (n ≠ 0)
  | .bool b => b

/-- JS `String(...)` coercion. -/
def JVal.toStr : JVal → String
  | .str s => s
  | .null => "null"
  | .undef => "undefined"
  | .num n => toString n
  | .bool b => if b then "true" else "false"

/-- An event dispatched by inventory.js: `"inventory:change"` carries the
full item list, `"inventory:use"` carries `{item}` (inventory.js:25,81). -/
inductive InvEvent where
  | change (items : List String)
  | use (item : String)
deriving DecidableEq

/-- The listener loop of `dispatch` (inventory.js:54): each callback runs
inside try/catch (the error is logged and swallowed), so a throwing callback
is recorded and iteration continues.  Records `(id, threw)` per call. -/
def runCbs : List Callback → List (ℕ × Bool)
  | [] => []
  | cb :: rest => (cb.id, cb.throws) :: runCbs rest

/-- One `dispatch` call: the event and the per-listener invocation records. -/
structure InvDispatch where
  ev : InvEvent
  calls : List (ℕ × Bool)
deriving DecidableEq

/-- The module state of inventory.js: the item `Set` (insertion-ordered,
deduplicated — modelled as a list), the persisted localStorage value under
`cw.inventory.v1`, and the listener sets for the two event types. -/
structure InvState where
  items : List String
  storage : List String
  changeLs : List Callback
  useLs : List Callback
deriving DecidableEq

/-- JS `Set.add` (inventory.js:64): append if absent, keep order. -/
def setAdd (xs : List String) (x : String) : List String :=
  if x ∈ xs then xs else xs ++ [x]

/-- `save` (inventory.js:21-26): write the item list to storage (the
try/catch around `setItem` succeeding in the model) and dispatch
`"inventory:change"` with the current list to the change listeners. -/
def save (st : InvState) : InvState × InvDispatch :=
  ({ st with storage := st.items },
   ⟨InvEvent.change st.items, runCbs st.changeLs⟩)

/-- `Inventory.add` (inventory.js:62-66): no-op on a falsy name; otherwise
add `String(name)` to the set and `save` (which notifies unconditionally). -/
def Inventory.add (name : JVal) (st : InvState) : InvState × List InvDispatch :=
  if name.truthy then
    ((save { st with items := setAdd st.items name.toStr }).1,
     [(save { st with items := setAdd st.items name.toStr }).2])
  else (st, [])

/-- `Inventory.remove` (inventory.js:67-70): no falsy guard; delete
`String(name)` from the set (first occurrence; a no-op when absent) and
`save` — so storage is written and a change event fires unconditionally. -/
def Inventory.remove (name : JVal) (st : InvState) : InvState × List InvDispatch :=
  ((save { st with items := st.items.erase name.toStr }).1,
   [(save { st with items := st.items.erase name.toStr }).2])

/-- `Inventory.has` (inventory.js:71-73). -/
def Inventory.has (name : JVal) (st : InvState) : Bool :=
  st.items.contains name.toStr

/-- `Inventory.list` (inventory.js:19,74). -/
def Inventory.list (st : InvState) : List String := st.items

/-- `Inventory.clear` (inventory.js:75-78). -/
def Inventory.clear (st : InvState) : InvState × List InvDispatch :=
  ((save { st with items := [] }).1, [(save { st with items := [] }).2])

/-- `Inventory.use` (inventory.js:79-82): if `String(name)` is absent,
return without any effect; otherwise dispatch `"inventory:use"` with
`{item: String(name)}` to the use listeners.  Never mutates state. -/
def Inventory.use (name : JVal) (st : InvState) : InvState × List InvDispatch :=
  if st.items.contains name.toStr then
    (st, [⟨InvEvent.use name.toStr, runCbs st.useLs⟩])
  else (st, [])

/-- The state of a fresh inventory module with empty storage. -/
def initialInv : InvState :=
  { items := [], storage := [], changeLs := [], useLs := [] }

lemma mem_setAdd (xs : List String) (x : String) : x ∈ setAdd xs x := by
  unfold setAdd
  split_ifs with h
  · exact h
  · simp

/-- Claim C7: for a truthy name, `add` puts `String(name)` in the set (`has`
is true afterward) and fires exactly one change notification even when the
item was already present; for a falsy name, `add` is a complete no-op (same
state — so no storage write — and no notification). -/
theorem inventory_add_spec (name : JVal) (st : InvState) :
    (name.truthy = true →
      Inventory.has name (Inventory.add name st).1 = true ∧
      (Inventory.add name st).2.map InvDispatch.ev
        = [InvEvent.change (setAdd st.items name.toStr)]) ∧
    (name.truthy = false → Inventory.add name st = (st, [])) := by
  constructor
  · intro h
    constructor
    · simp only [Inventory.add, h, if_true, save, Inventory.has]
      simpa using mem_setAdd st.items name.toStr
    · simp [Inventory.add, h, save]
  · intro h
    simp [Inventory.add, h]

/-- Witness for C7: adding "x" to the fresh store, then a falsy no-op. -/
theorem inventory_add_spec_witness :
    Inventory.has (JVal.str "x") (Inventory.add (JVal.str "x") initialInv).1
      = true ∧
    Inventory.add JVal.undef initialInv = (initialInv, []) :=
  ⟨((inventory_add_spec (JVal.str "x") initialInv).1 (by decide)).1,
   (inventory_add_spec JVal.undef initialInv).2 (by decide)⟩

/-- Claim C8: `use` never mutates the state (item set and storage included),
and emits exactly one `"inventory:use"` notification with payload
`String(name)` when the item is present, none when it is absent. -/
theorem inventory_use_spec (name : JVal) (st : InvState) :
    (Inventory.use name st).1 = st ∧
    (name.toStr ∈ st.items →
      (Inventory.use name st).2
        = [⟨InvEvent.use name.toStr, runCbs st.useLs⟩]) ∧
    (name.toStr ∉ st.items → (Inventory.use name st).2 = []) := by
  refine ⟨?_, fun h => ?_, fun h => ?_⟩
  · unfold Inventory.use
    split_ifs <;> rfl
  · simp [Inventory.use, h]
  · simp [Inventory.use, h]

/-- Witness for C8: using a present item fires the use event; using an
absent item fires nothing. -/
theorem inventory_use_spec_witness :
    (Inventory.use (JVal.str "x")
        { items := ["x"], storage := ["x"], changeLs := [], useLs := [] }).2
      = [⟨InvEvent.use "x", []⟩] ∧
    (Inventory.use (JVal.str "x") initialInv).2 = [] :=
  ⟨(inventory_use_spec (JVal.str "x")
      { items := ["x"], storage := ["x"], changeLs := [], useLs := [] }).2.1
      (by decide),
   (inventory_use_spec (JVal.str "x") initialInv).2.2 (by decide)⟩

/-- Claim C10: `remove` has no falsy guard: for every argument — including
undefined, null, 0 or the empty string — it erases `String(name)` from the
set (a no-op when absent), writes the resulting item list to storage, leaves
the listener sets alone, and fires exactly one change notification even when
nothing was removed. -/
theorem inventory_remove_spec (name : JVal) (st : InvState) :
    (Inventory.remove name st).1.items = st.items.erase name.toStr ∧
    (Inventory.remove name st).1.storage = st.items.erase name.toStr ∧
    (Inventory.remove name st).1.changeLs = st.changeLs ∧
    (Inventory.remove name st).1.useLs = st.useLs ∧
    (Inventory.remove name st).2.map InvDispatch.ev
      = [InvEvent.change (st.items.erase name.toStr)] ∧
    (Inventory.remove name st).2.length = 1 :=
  ⟨rfl, rfl, rfl, rfl, rfl, rfl⟩

lemma runCbsAt_append (v : ℚ) (l₁ l₂ : List Callback) :
    runCbsAt v (l₁ ++ l₂) = runCbsAt v l₁ ++ runCbsAt v l₂ := by
  induction l₁ with
  | nil => rfl
  | cons c cs ih => simp [runCbsAt, ih]

lemma runCbs_append (l₁ l₂ : List Callback) :
    runCbs (l₁ ++ l₂) = runCbs l₁ ++ runCbs l₂ := by
  induction l₁ with
  | nil => rfl
  | cons c cs ih => simp [runCbs, ih]

/-- Claim C9: in both stores' notification loops a throwing callback is
caught — it is recorded with `threw = true` and every callback after it is
still invoked — and the mutating operations leave the subscriber/listener
collections untouched and return normally (the loops are total functions, so
no exception reaches the caller). -/
theorem callback_exception_isolation (v : ℚ) (pre post : List Callback)
    (bad : Callback) (hb : bad.throws = true) :
    runCbsAt v (pre ++ bad :: post)
      = runCbsAt v pre ++ (bad.id, v, true) :: runCbsAt v post ∧
    runCbs (pre ++ bad :: post)
      = runCbs pre ++ (bad.id, true) :: runCbs post ∧
    (∀ (w : JNum) (s : SanityState),
      (Sanity.set w s).2.1.subscribers = s.subscribers) ∧
    (∀ (name : JVal) (st : InvState),
      (Inventory.add name st).1.changeLs = st.changeLs ∧
      (Inventory.add name st).1.useLs = st.useLs) := by
  refine ⟨?_, ?_, ?_, ?_⟩
  · rw [runCbsAt_append]
    simp [runCbsAt, hb]
  · rw [runCbs_append]
    simp [runCbs, hb]
  · intro w s
    unfold Sanity.set
    split_ifs <;> rfl
  · intro name st
    unfold Inventory.add
    split_ifs <;> exact ⟨rfl, rfl⟩

/-- Witness for C9: a throwing callback between two healthy ones; all three
are recorded and the throwing one is marked. -/
theorem callback_exception_isolation_witness :
    runCbsAt 1 ([⟨1, false⟩] ++ ⟨9, true⟩ :: [⟨2, false⟩])
      = runCbsAt 1 [⟨1, false⟩] ++ (9, 1, true) :: runCbsAt 1 [⟨2, false⟩] :=
  (callback_exception_isolation 1 [⟨1, false⟩] [⟨2, false⟩] ⟨9, true⟩ rfl).1
